import Mathlib

/-!
Verification of the TrainR LED-controller core.

This file gives a shallow embedding of the LED control engine of the
repository (files `src/leds.rs` and `src/error.rs`) and proves the
specified properties about it.

Modelling conventions:
* `u8`/`u64` values are modelled as `Nat`; all arithmetic performed by the
  code stays far below the overflow bounds on the paths where it is reached
  (pins are at most 27, positions at most 24), so plain `Nat` arithmetic
  agrees with the machine arithmetic of the source.
* The two hash maps owned by the controller (`handles : led ↦ LineHandle`
  and `blink_handles : led ↦ JoinHandle`) are modelled as association
  lists.  A `LineHandle` is identified by the GPIO pin it was opened on; a
  blink `JoinHandle` is identified by the period of the task it runs.  Hash
  map iteration order is unspecified, which the model reflects by proving
  the iteration-dependent facts for an arbitrary list order.
* Hardware effects are captured by an event trace: aborting a blink task
  emits `Event.cancel led`, a successful `set_value` on a line emits
  `Event.write pin value`.  Whether a given hardware write succeeds is an
  environment choice, modelled by an oracle `wOk : pin → Bool`; a failed
  write emits no event.
* Fallible operations return `Result`, mirroring `Result<T, TrainError>`.
-/

namespace TrainR

/-- Error enum of `src/error.rs` (`TrainError`).  The source spells the
third constructor `GPIO`; it is spelled `Gpio` here. -/
inductive TrainError where
  | Hardware : String → TrainError
  | I2C : String → TrainError
  | Gpio : String → TrainError
  | InvalidParameter : String → TrainError
  | DeviceNotFound : TrainError
  | NotSupported : TrainError
deriving DecidableEq, Repr

/-- `Result<T>` alias of `src/error.rs`. -/
inductive Result (α : Type) where
  | ok : α → Result α
  | error : TrainError → Result α
deriving DecidableEq, Repr

/-- Discriminates the invalid-parameter error kind. -/
def TrainError.isInvalidParameter : TrainError → Bool
  | .InvalidParameter _ => true
  | _ => false

/-- Discriminates the hardware-access (GPIO) error kind. -/
def TrainError.isGpio : TrainError → Bool
  | .Gpio _ => true
  | _ => false

/-- A result that, if it is an error at all, carries an invalid-parameter
error. -/
def isInvalidParameterError {α : Type} : Result α → Bool
  | .error (.InvalidParameter _) => true
  | _ => false

/-- A result whose error, if any, is of one of the two kinds this
component produces: invalid-parameter or hardware-access (GPIO). -/
def errorKindOk {α : Type} : Result α → Bool
  | .ok _ => true
  | .error e => e.isInvalidParameter || e.isGpio

/-- `LED_COUNT` from `src/leds.rs`: total number of LEDs. -/
def LED_COUNT : Nat := 24

/-- Model of `std::ops::RangeInclusive<u8>`, the type of the LED subsets. -/
structure RangeInclusive where
  start : Nat
  «end» : Nat
deriving DecidableEq, Repr

/-- `GREEN_LEDS: RangeInclusive<u8> = 1..=6`. -/
def GREEN_LEDS : RangeInclusive := ⟨1, 6⟩

/-- `AMBER_LEDS: RangeInclusive<u8> = 7..=12`. -/
def AMBER_LEDS : RangeInclusive := ⟨7, 12⟩

/-- `RED_LEDS: RangeInclusive<u8> = 13..=24`. -/
def RED_LEDS : RangeInclusive := ⟨13, 24⟩

/-- `LedState` from `src/leds.rs`. -/
inductive LedState where
  | On
  | Off
deriving DecidableEq, Repr

/-- `led_to_gpio_pin` from `src/leds.rs`: maps LED number (1-24) to GPIO
pin (4-27), rejecting out-of-range LED numbers. -/
def led_to_gpio_pin (led : Nat) : Result Nat :=
  if led < 1 ∨ led > LED_COUNT then
    .error (.InvalidParameter
      ("LED number must be between 1 and " ++ toString LED_COUNT ++ ", got " ++ toString led))
  else
    .ok (led + 3)

/-- Observable hardware-side events emitted by controller operations:
aborting the blink task of a LED, and successfully writing a value to a
GPIO pin. -/
inductive Event where
  | cancel : Nat → Event
  | write : Nat → Nat → Event
deriving DecidableEq, Repr

/-- Event is an abort of a blink task. -/
def Event.isCancel : Event → Bool
  | .cancel _ => true
  | _ => false

/-- Event is a pin write. -/
def Event.isWrite : Event → Bool
  | .write _ _ => true
  | _ => false

/-- State of `LedController`: `handles` maps each LED number to the GPIO
pin its line handle was opened on; `blink_handles` maps each LED with a
live blink task to the period (ms) that task ticks at. -/
structure LedController where
  handles : List (Nat × Nat)
  blink_handles : List (Nat × Nat)
deriving DecidableEq, Repr

/-- `HashMap::get`. -/
def mapLookup (k : Nat) : List (Nat × Nat) → Option Nat
  | [] => none
  | (k2, v) :: rest => if k2 = k then some v else mapLookup k rest

/-- `HashMap::remove`: drops the entry for `k`, if any. -/
def mapRemove (k : Nat) : List (Nat × Nat) → List (Nat × Nat)
  | [] => []
  | (k2, v) :: rest => if k2 = k then mapRemove k rest else (k2, v) :: mapRemove k rest

/-- `HashMap::insert`: the new binding replaces any entry for `k`. -/
def mapInsert (k v : Nat) (m : List (Nat × Nat)) : List (Nat × Nat) :=
  (k, v) :: mapRemove k m

/-- The line-opening loop of `LedController::new`: for each LED number,
compute its GPIO pin, get the line (may fail) and request it as output
(may fail), accumulating `led ↦ pin`.  `lineOk`/`requestOk` say, per pin,
whether the two hardware calls succeed. -/
def new_init (lineOk requestOk : Nat → Bool) : List Nat → Result (List (Nat × Nat))
  | [] => .ok []
  | led :: rest =>
    match led_to_gpio_pin led with
    | .error e => .error e
    | .ok gpio_pin =>
      if lineOk gpio_pin then
        if requestOk gpio_pin then
          match new_init lineOk requestOk rest with
          | .error e => .error e
          | .ok tail => .ok ((led, gpio_pin) :: tail)
        else
          .error (.Gpio
            ("Failed to request GPIO line " ++ toString gpio_pin ++ " for LED " ++ toString led))
      else
        .error (.Gpio
          ("Failed to get GPIO line " ++ toString gpio_pin ++ " for LED " ++ toString led))

/-- The iteration `1..=LED_COUNT` of `LedController::new`. -/
def ledRange : List Nat := List.range' 1 LED_COUNT

/-- `LedController::new`: opens the GPIO chip (success given by `chipOk`)
and requests all 24 lines; all-or-nothing, any failure aborts
construction. -/
def new (chipOk : Bool) (lineOk requestOk : Nat → Bool) : Result LedController :=
  if chipOk then
    match new_init lineOk requestOk ledRange with
    | .error e => .error e
    | .ok hs => .ok { handles := hs, blink_handles := [] }
  else
    .error (.Gpio ("Failed to open GPIO chip"))

/-- `LedController::cancel_blink`: removes the blink entry for `led`, if
present, and aborts that task.  Always returns `Ok(())`. -/
def cancel_blink (s : LedController) (led : Nat) : Result Unit × LedController × List Event :=
  match mapLookup led s.blink_handles with
  | some _ =>
    (.ok (), { s with blink_handles := mapRemove led s.blink_handles }, [.cancel led])
  | none => (.ok (), s, [])

/-- `LedController::on`: cancels any blink task for `led`, then writes 1
to its pin; fails with invalid-parameter if `led` has no handle, and with
a GPIO error if the write fails. -/
def «on» (wOk : Nat → Bool) (s : LedController) (led : Nat) :
    Result Unit × LedController × List Event :=
  match cancel_blink s led with
  | (.error e, s1, t1) => (.error e, s1, t1)
  | (.ok _, s1, t1) =>
    match mapLookup led s1.handles with
    | none => (.error (.InvalidParameter ("LED " ++ toString led ++ " not found")), s1, t1)
    | some gpio_pin =>
      if wOk gpio_pin then
        (.ok (), s1, t1 ++ [.write gpio_pin 1])
      else
        (.error (.Gpio ("Failed to turn on LED " ++ toString led)), s1, t1)

/-- `LedController::off`: cancels any blink task for `led`, then writes 0
to its pin; failure cases as in `on`. -/
def off (wOk : Nat → Bool) (s : LedController) (led : Nat) :
    Result Unit × LedController × List Event :=
  match cancel_blink s led with
  | (.error e, s1, t1) => (.error e, s1, t1)
  | (.ok _, s1, t1) =>
    match mapLookup led s1.handles with
    | none => (.error (.InvalidParameter ("LED " ++ toString led ++ " not found")), s1, t1)
    | some gpio_pin =>
      if wOk gpio_pin then
        (.ok (), s1, t1 ++ [.write gpio_pin 0])
      else
        (.error (.Gpio ("Failed to turn off LED " ++ toString led)), s1, t1)

/-- `LedController::blink`: rejects a zero period, cancels any existing
blink task for `led`, looks up the LED handle, then spawns the periodic
toggle task and stores its join handle under `led`.  The spawned task is
represented by its period; its asynchronous toggling is outside this
sequential model. -/
def blink (s : LedController) (led : Nat) (frequency_ms : Nat) :
    Result Unit × LedController × List Event :=
  if frequency_ms = 0 then
    (.error (.InvalidParameter ("Blink frequency must be greater than 0")), s, [])
  else
    match cancel_blink s led with
    | (.error e, s1, t1) => (.error e, s1, t1)
    | (.ok _, s1, t1) =>
      match mapLookup led s1.handles with
      | none => (.error (.InvalidParameter ("LED " ++ toString led ++ " not found")), s1, t1)
      | some _gpio_pin =>
        (.ok (),
          { s1 with blink_handles := mapInsert led frequency_ms s1.blink_handles }, t1)

/-- The write loop of `LedController::all_off`: writes 0 to each handle in
iteration order, aborting with a GPIO error at the first failed write. -/
def all_off_writes (wOk : Nat → Bool) : List (Nat × Nat) → Result Unit × List Event
  | [] => (.ok (), [])
  | (led, gpio_pin) :: rest =>
    if wOk gpio_pin then
      match all_off_writes wOk rest with
      | (r, t) => (r, .write gpio_pin 0 :: t)
    else
      (.error (.Gpio ("Failed to turn off LED " ++ toString led)), [])

/-- `LedController::all_off`: aborts every blink task and clears the blink
map, then writes 0 to every LED pin in iteration order. -/
def all_off (wOk : Nat → Bool) (s : LedController) :
    Result Unit × LedController × List Event :=
  match all_off_writes wOk s.handles with
  | (r, t) =>
    (r, { s with blink_handles := [] },
      s.blink_handles.map (fun p => Event.cancel p.1) ++ t)

/-- `LedController::get_led_from_subset`: resolves a 1-based position in a
color subset to the absolute LED number `start + position - 1`. -/
def get_led_from_subset (subset : RangeInclusive) (position : Nat) : Result Nat :=
  let start := subset.start
  let count := subset.«end» - subset.start + 1
  if position < 1 ∨ position > count then
    .error (.InvalidParameter
      ("Position " ++ toString position ++ " is out of range for subset (1-" ++ toString count ++ ")"))
  else
    .ok (start + position - 1)

/-- `LedController::set_led_by_color`: resolve, then `on` or `off`. -/
def set_led_by_color (wOk : Nat → Bool) (s : LedController)
    (subset : RangeInclusive) (position : Nat) (state : LedState) :
    Result Unit × LedController × List Event :=
  match get_led_from_subset subset position with
  | .error e => (.error e, s, [])
  | .ok led =>
    match state with
    | .On => «on» wOk s led
    | .Off => off wOk s led

/-- `LedController::green_on`. -/
def green_on (wOk : Nat → Bool) (s : LedController) (position : Nat) :
    Result Unit × LedController × List Event :=
  set_led_by_color wOk s GREEN_LEDS position .On

/-- `LedController::green_off`. -/
def green_off (wOk : Nat → Bool) (s : LedController) (position : Nat) :
    Result Unit × LedController × List Event :=
  set_led_by_color wOk s GREEN_LEDS position .Off

/-- `LedController::amber_on`. -/
def amber_on (wOk : Nat → Bool) (s : LedController) (position : Nat) :
    Result Unit × LedController × List Event :=
  set_led_by_color wOk s AMBER_LEDS position .On

/-- `LedController::amber_off`. -/
def amber_off (wOk : Nat → Bool) (s : LedController) (position : Nat) :
    Result Unit × LedController × List Event :=
  set_led_by_color wOk s AMBER_LEDS position .Off

/-- `LedController::red_on`. -/
def red_on (wOk : Nat → Bool) (s : LedController) (position : Nat) :
    Result Unit × LedController × List Event :=
  set_led_by_color wOk s RED_LEDS position .On

/-- `LedController::red_off`. -/
def red_off (wOk : Nat → Bool) (s : LedController) (position : Nat) :
    Result Unit × LedController × List Event :=
  set_led_by_color wOk s RED_LEDS position .Off

/-- `LedController::blink_by_color`: resolve, then `blink`. -/
def blink_by_color (s : LedController) (subset : RangeInclusive)
    (position : Nat) (frequency_ms : Nat) :
    Result Unit × LedController × List Event :=
  match get_led_from_subset subset position with
  | .error e => (.error e, s, [])
  | .ok led => blink s led frequency_ms

/-- The LED numbers carrying a live blink task. -/
def blinkKeys (s : LedController) : List Nat := s.blink_handles.map Prod.fst

/-- Trace shape in which every blink-task abort precedes every pin
write. -/
def cancelsThenWrites (t : List Event) : Prop :=
  ∃ a b, t = a ++ b ∧ (∀ e ∈ a, e.isCancel = true) ∧ (∀ e ∈ b, e.isWrite = true)

/-- Value of the last successful write to `gpio_pin` in a trace, if
any. -/
def lastWriteTo (gpio_pin : Nat) : List Event → Option Nat
  | [] => none
  | e :: rest =>
    match lastWriteTo gpio_pin rest with
    | some v => some v
    | none =>
      match e with
      | .write p v => if p = gpio_pin then some v else none
      | _ => none

/-- The controller state produced by a fully successful
`LedController::new`: all 24 handles on pins `led + 3`, no blink task. -/
def initController : LedController :=
  { handles := ledRange.map (fun led => (led, led + 3)), blink_handles := [] }

/-- Spec-side composition, following §4.4 of the specification: a
color-qualified operation is a thin composition of the Resolver followed
by the corresponding light-id operation, the resolver's error being
propagated unchanged (with no state change and no hardware effect). -/
def resolveThen (k : Nat → Result Unit × LedController × List Event)
    (s : LedController) (subset : RangeInclusive) (position : Nat) :
    Result Unit × LedController × List Event :=
  match get_led_from_subset subset position with
  | .error e => (.error e, s, [])
  | .ok led => k led

/-! ### Helper lemmas about the map operations -/

theorem mapRemove_eq_self {k : Nat} {m : List (Nat × Nat)}
    (h : mapLookup k m = none) : mapRemove k m = m := by
  induction m with
  | nil => rfl
  | cons p rest ih =>
    obtain ⟨k2, v⟩ := p
    by_cases hk : k2 = k
    · simp [mapLookup, hk] at h
    · simp only [mapLookup, hk, if_false, if_neg hk] at h ⊢
      simp [mapRemove, hk, ih h]

theorem mapLookup_mapRemove_self (k : Nat) (m : List (Nat × Nat)) :
    mapLookup k (mapRemove k m) = none := by
  induction m with
  | nil => rfl
  | cons p rest ih =>
    obtain ⟨k2, v⟩ := p
    by_cases hk : k2 = k
    · simp [mapRemove, hk, ih]
    · simp [mapRemove, hk, mapLookup, ih]

theorem mapLookup_mapInsert_self (k v : Nat) (m : List (Nat × Nat)) :
    mapLookup k (mapInsert k v m) = some v := by
  simp [mapInsert, mapLookup]

theorem filter_key_mapRemove (k : Nat) (m : List (Nat × Nat)) :
    (mapRemove k m).filter (fun p => p.1 == k) = [] := by
  induction m with
  | nil => rfl
  | cons p rest ih =>
    obtain ⟨k2, v⟩ := p
    by_cases hk : k2 = k
    · simp [mapRemove, hk, ih]
    · simp [mapRemove, hk, List.filter, ih]

theorem mapRemove_sublist (k : Nat) (m : List (Nat × Nat)) :
    List.Sublist (mapRemove k m) m := by
  induction m with
  | nil => simp [mapRemove]
  | cons p rest ih =>
    obtain ⟨k2, v⟩ := p
    by_cases hk : k2 = k
    · simp only [mapRemove, if_pos hk]
      exact ih.cons _
    · simp only [mapRemove, if_neg hk]
      exact ih.cons₂ _

theorem keys_mapRemove_nodup {k : Nat} {m : List (Nat × Nat)}
    (h : (m.map Prod.fst).Nodup) : ((mapRemove k m).map Prod.fst).Nodup :=
  h.sublist ((mapRemove_sublist k m).map Prod.fst)

theorem not_mem_keys_mapRemove (k : Nat) (m : List (Nat × Nat)) :
    k ∉ (mapRemove k m).map Prod.fst := by
  induction m with
  | nil => simp [mapRemove]
  | cons p rest ih =>
    obtain ⟨k2, v⟩ := p
    by_cases hk : k2 = k
    · simpa [mapRemove, hk] using ih
    · simp [mapRemove, hk, ih, Ne.symm hk]

theorem keys_mapInsert_nodup {k : Nat} {m : List (Nat × Nat)} (v : Nat)
    (h : (m.map Prod.fst).Nodup) : ((mapInsert k v m).map Prod.fst).Nodup := by
  simp only [mapInsert, List.map_cons, List.nodup_cons]
  exact ⟨not_mem_keys_mapRemove k m, keys_mapRemove_nodup h⟩

/-! ### Helper lemmas about `cancel_blink` and traces -/

theorem cancel_blink_fst (s : LedController) (led : Nat) :
    (cancel_blink s led).1 = .ok () := by
  cases h : mapLookup led s.blink_handles <;> simp [cancel_blink, h]

theorem cancel_blink_state (s : LedController) (led : Nat) :
    (cancel_blink s led).2.1 =
      { s with blink_handles := mapRemove led s.blink_handles } := by
  cases h : mapLookup led s.blink_handles
  · simp [cancel_blink, h, mapRemove_eq_self h]
  · simp [cancel_blink, h]

theorem cancel_blink_trace_cancels (s : LedController) (led : Nat) :
    ∀ e ∈ (cancel_blink s led).2.2, e.isCancel = true := by
  cases h : mapLookup led s.blink_handles <;>
    simp [cancel_blink, h, Event.isCancel]

theorem lastWriteTo_append_write (gpio_pin v : Nat) (t : List Event) :
    lastWriteTo gpio_pin (t ++ [Event.write gpio_pin v]) = some v := by
  induction t with
  | nil => simp [lastWriteTo]
  | cons e rest ih => simp [lastWriteTo, ih]

/-! ### Characterization lemmas for the controller operations -/

theorem led_to_gpio_pin_in_range {led : Nat} (h1 : 1 ≤ led) (h2 : led ≤ LED_COUNT) :
    led_to_gpio_pin led = .ok (led + 3) := by
  have h : ¬ (led < 1 ∨ led > LED_COUNT) := by omega
  simp only [led_to_gpio_pin]
  rw [if_neg h]

theorem get_led_from_subset_ok (subset : RangeInclusive) (position : Nat)
    (h1 : 1 ≤ position) (h2 : position ≤ subset.«end» - subset.start + 1) :
    get_led_from_subset subset position = .ok (subset.start + position - 1) := by
  have h : ¬ (position < 1 ∨ position > subset.«end» - subset.start + 1) := by omega
  simp only [get_led_from_subset]
  rw [if_neg h]

theorem get_led_from_subset_err (subset : RangeInclusive) (position : Nat)
    (h : position < 1 ∨ position > subset.«end» - subset.start + 1) :
    isInvalidParameterError (get_led_from_subset subset position) = true := by
  simp only [get_led_from_subset]
  rw [if_pos h]
  rfl

theorem get_led_from_subset_error_shape {subset : RangeInclusive}
    {position : Nat} {e : TrainError}
    (h : get_led_from_subset subset position = .error e) :
    e.isInvalidParameter = true := by
  simp only [get_led_from_subset] at h
  split at h
  · injection h with h2
    subst h2
    rfl
  · exact Result.noConfusion h

theorem on_cases (wOk : Nat → Bool) (s : LedController) (led : Nat) :
    «on» wOk s led =
      match mapLookup led s.handles with
      | none =>
        (.error (.InvalidParameter ("LED " ++ toString led ++ " not found")),
          (cancel_blink s led).2.1, (cancel_blink s led).2.2)
      | some gpio_pin =>
        if wOk gpio_pin then
          (.ok (), (cancel_blink s led).2.1,
            (cancel_blink s led).2.2 ++ [.write gpio_pin 1])
        else
          (.error (.Gpio ("Failed to turn on LED " ++ toString led)),
            (cancel_blink s led).2.1, (cancel_blink s led).2.2) := by
  cases hc : mapLookup led s.blink_handles <;> simp [«on», cancel_blink, hc]

theorem off_cases (wOk : Nat → Bool) (s : LedController) (led : Nat) :
    off wOk s led =
      match mapLookup led s.handles with
      | none =>
        (.error (.InvalidParameter ("LED " ++ toString led ++ " not found")),
          (cancel_blink s led).2.1, (cancel_blink s led).2.2)
      | some gpio_pin =>
        if wOk gpio_pin then
          (.ok (), (cancel_blink s led).2.1,
            (cancel_blink s led).2.2 ++ [.write gpio_pin 0])
        else
          (.error (.Gpio ("Failed to turn off LED " ++ toString led)),
            (cancel_blink s led).2.1, (cancel_blink s led).2.2) := by
  cases hc : mapLookup led s.blink_handles <;> simp [off, cancel_blink, hc]

theorem blink_cases (s : LedController) (led : Nat) {f : Nat} (hf : f ≠ 0) :
    blink s led f =
      match mapLookup led s.handles with
      | none =>
        (.error (.InvalidParameter ("LED " ++ toString led ++ " not found")),
          (cancel_blink s led).2.1, (cancel_blink s led).2.2)
      | some _ =>
        (.ok (),
          { s with blink_handles := mapInsert led f (mapRemove led s.blink_handles) },
          (cancel_blink s led).2.2) := by
  cases hc : mapLookup led s.blink_handles
  · simp [blink, cancel_blink, hc, hf, mapRemove_eq_self hc]
  · simp [blink, cancel_blink, hc, hf]

theorem led_to_gpio_pin_error_shape {led : Nat} {e : TrainError}
    (h : led_to_gpio_pin led = .error e) : e.isInvalidParameter = true := by
  simp only [led_to_gpio_pin] at h
  split at h
  · injection h with h2
    subst h2
    rfl
  · exact Result.noConfusion h

theorem new_init_error_shape {lineOk requestOk : Nat → Bool} :
    ∀ {leds : List Nat} {e : TrainError},
      new_init lineOk requestOk leds = .error e →
      (e.isInvalidParameter || e.isGpio) = true := by
  intro leds
  induction leds with
  | nil => intro e h; exact Result.noConfusion h
  | cons led rest ih =>
    intro e h
    cases hp : led_to_gpio_pin led with
    | error e2 =>
      simp only [new_init, hp] at h
      injection h with h2
      subst h2
      simp [led_to_gpio_pin_error_shape hp]
    | ok gpio_pin =>
      simp only [new_init, hp] at h
      by_cases hl : lineOk gpio_pin = true
      · rw [if_pos hl] at h
        by_cases hrq : requestOk gpio_pin = true
        · rw [if_pos hrq] at h
          cases hr : new_init lineOk requestOk rest with
          | error e2 =>
            simp only [hr] at h
            injection h with h2
            subst h2
            exact ih hr
          | ok tail =>
            simp only [hr] at h
            exact Result.noConfusion h
        · rw [if_neg hrq] at h
          injection h with h2
          subst h2
          rfl
      · rw [if_neg hl] at h
        injection h with h2
        subst h2
        rfl

theorem new_init_ok_shape {lineOk requestOk : Nat → Bool} :
    ∀ {leds : List Nat} {hs : List (Nat × Nat)},
      (∀ l ∈ leds, 1 ≤ l ∧ l ≤ LED_COUNT) →
      new_init lineOk requestOk leds = .ok hs →
      hs = leds.map (fun l => (l, l + 3)) := by
  intro leds
  induction leds with
  | nil =>
    intro hs _ h
    injection h with h2
    simp [← h2]
  | cons led rest ih =>
    intro hs hmem h
    have hled := hmem led (by simp)
    have hpin : led_to_gpio_pin led = .ok (led + 3) :=
      led_to_gpio_pin_in_range hled.1 hled.2
    simp only [new_init, hpin] at h
    by_cases hl : lineOk (led + 3) = true
    · rw [if_pos hl] at h
      by_cases hrq : requestOk (led + 3) = true
      · rw [if_pos hrq] at h
        cases hr : new_init lineOk requestOk rest with
        | error e =>
          simp only [hr] at h
          exact Result.noConfusion h
        | ok tail =>
          simp only [hr] at h
          injection h with h2
          have htail := ih (fun l hl2 => hmem l (List.mem_cons_of_mem _ hl2)) hr
          simp [← h2, htail]
      · rw [if_neg hrq] at h
        exact Result.noConfusion h
    · rw [if_neg hl] at h
      exact Result.noConfusion h

theorem mem_ledRange_iff {l : Nat} : l ∈ ledRange ↔ 1 ≤ l ∧ l ≤ LED_COUNT := by
  simp only [ledRange, LED_COUNT, List.mem_range']
  constructor
  · rintro ⟨i, hi, rfl⟩
    omega
  · intro h
    exact ⟨l - 1, by omega, by omega⟩

theorem new_ok_shape {lineOk requestOk : Nat → Bool} {c : LedController}
    (h : new true lineOk requestOk = .ok c) : c = initController := by
  simp only [new, if_true] at h
  cases hni : new_init lineOk requestOk ledRange with
  | error e =>
    simp only [hni] at h
    exact Result.noConfusion h
  | ok hs =>
    simp only [hni] at h
    injection h with h2
    have hmem : ∀ l ∈ ledRange, 1 ≤ l ∧ l ≤ LED_COUNT :=
      fun l hl => mem_ledRange_iff.1 hl
    have hhs := new_init_ok_shape hmem hni
    simp [← h2, initController, hhs]

theorem mapLookup_map_pin (led : Nat) :
    ∀ leds : List Nat,
      mapLookup led (leds.map (fun l => (l, l + 3))) =
        if led ∈ leds then some (led + 3) else none := by
  intro leds
  induction leds with
  | nil => simp [mapLookup]
  | cons a rest ih =>
    by_cases ha : a = led
    · subst ha
      simp [mapLookup]
    · simp [mapLookup, ha, List.mem_cons, Ne.symm ha, ih]

/-! ### State and trace shapes of the operations -/

theorem on_blink_handles (wOk : Nat → Bool) (s : LedController) (led : Nat) :
    («on» wOk s led).2.1.blink_handles = mapRemove led s.blink_handles := by
  rw [on_cases]
  cases hh : mapLookup led s.handles with
  | none => rw [cancel_blink_state]
  | some gpio_pin =>
    cases hw : wOk gpio_pin <;> simp [hw, cancel_blink_state]

theorem off_blink_handles (wOk : Nat → Bool) (s : LedController) (led : Nat) :
    (off wOk s led).2.1.blink_handles = mapRemove led s.blink_handles := by
  rw [off_cases]
  cases hh : mapLookup led s.handles with
  | none => rw [cancel_blink_state]
  | some gpio_pin =>
    cases hw : wOk gpio_pin <;> simp [hw, cancel_blink_state]

theorem blink_handles_eq (s : LedController) (led f : Nat) :
    (blink s led f).2.1.handles = s.handles := by
  by_cases hf : f = 0
  · subst hf
    rfl
  · rw [blink_cases s led hf]
    cases hh : mapLookup led s.handles with
    | none => rw [cancel_blink_state]
    | some gpio_pin => rfl

theorem cancelsThenWrites_on (wOk : Nat → Bool) (s : LedController) (led : Nat) :
    cancelsThenWrites («on» wOk s led).2.2 := by
  rw [on_cases]
  cases hh : mapLookup led s.handles with
  | none =>
    exact ⟨(cancel_blink s led).2.2, [], by simp,
      cancel_blink_trace_cancels s led, by simp⟩
  | some gpio_pin =>
    dsimp only
    cases hw : wOk gpio_pin
    · rw [if_neg (by simp)]
      exact ⟨(cancel_blink s led).2.2, [], by simp,
        cancel_blink_trace_cancels s led, by simp⟩
    · rw [if_pos rfl]
      refine ⟨(cancel_blink s led).2.2, [Event.write gpio_pin 1], rfl,
        cancel_blink_trace_cancels s led, ?_⟩
      intro e he
      rw [List.mem_singleton] at he
      subst he
      rfl

theorem cancelsThenWrites_off (wOk : Nat → Bool) (s : LedController) (led : Nat) :
    cancelsThenWrites (off wOk s led).2.2 := by
  rw [off_cases]
  cases hh : mapLookup led s.handles with
  | none =>
    exact ⟨(cancel_blink s led).2.2, [], by simp,
      cancel_blink_trace_cancels s led, by simp⟩
  | some gpio_pin =>
    dsimp only
    cases hw : wOk gpio_pin
    · rw [if_neg (by simp)]
      exact ⟨(cancel_blink s led).2.2, [], by simp,
        cancel_blink_trace_cancels s led, by simp⟩
    · rw [if_pos rfl]
      refine ⟨(cancel_blink s led).2.2, [Event.write gpio_pin 0], rfl,
        cancel_blink_trace_cancels s led, ?_⟩
      intro e he
      rw [List.mem_singleton] at he
      subst he
      rfl

theorem on_ok_result (wOk : Nat → Bool) (s : LedController) (led gpio_pin : Nat)
    (hh : mapLookup led s.handles = some gpio_pin) (hw : wOk gpio_pin = true) :
    («on» wOk s led).1 = .ok () ∧
    («on» wOk s led).2.2 = (cancel_blink s led).2.2 ++ [Event.write gpio_pin 1] := by
  rw [on_cases, hh]
  dsimp only
  rw [if_pos hw]
  exact ⟨rfl, rfl⟩

theorem off_ok_result (wOk : Nat → Bool) (s : LedController) (led gpio_pin : Nat)
    (hh : mapLookup led s.handles = some gpio_pin) (hw : wOk gpio_pin = true) :
    (off wOk s led).1 = .ok () ∧
    (off wOk s led).2.2 = (cancel_blink s led).2.2 ++ [Event.write gpio_pin 0] := by
  rw [off_cases, hh]
  dsimp only
  rw [if_pos hw]
  exact ⟨rfl, rfl⟩

theorem all_off_fst (wOk : Nat → Bool) (s : LedController) :
    (all_off wOk s).1 = (all_off_writes wOk s.handles).1 := by
  rcases hr : all_off_writes wOk s.handles with ⟨r, t⟩
  simp only [all_off, hr]

theorem all_off_blink_empty (wOk : Nat → Bool) (s : LedController) :
    (all_off wOk s).2.1.blink_handles = [] := by
  rcases hr : all_off_writes wOk s.handles with ⟨r, t⟩
  simp only [all_off, hr]

theorem all_off_trace (wOk : Nat → Bool) (s : LedController) :
    (all_off wOk s).2.2 =
      s.blink_handles.map (fun p => Event.cancel p.1) ++
        (all_off_writes wOk s.handles).2 := by
  rcases hr : all_off_writes wOk s.handles with ⟨r, t⟩
  simp only [all_off, hr]

theorem all_off_writes_all_ok (wOk : Nat → Bool) :
    ∀ hs : List (Nat × Nat), (∀ p ∈ hs, wOk p.2 = true) →
      all_off_writes wOk hs = (.ok (), hs.map (fun p => Event.write p.2 0)) := by
  intro hs
  induction hs with
  | nil => intro _; rfl
  | cons q rest ih =>
    intro h
    obtain ⟨led2, gpio_pin⟩ := q
    have hw : wOk gpio_pin = true := h (led2, gpio_pin) (by simp)
    have hrest := ih (fun p hp => h p (List.mem_cons_of_mem _ hp))
    simp only [all_off_writes, List.map_cons]
    rw [if_pos hw, hrest]

theorem all_off_writes_ok_of (wOk : Nat → Bool) :
    ∀ hs : List (Nat × Nat), (all_off_writes wOk hs).1 = .ok () →
      ∀ p ∈ hs, wOk p.2 = true := by
  intro hs
  induction hs with
  | nil =>
    intro _ p hp
    simp at hp
  | cons q rest ih =>
    obtain ⟨led2, gpio_pin⟩ := q
    intro hok p hp
    cases hw : wOk gpio_pin
    · simp [all_off_writes, hw] at hok
    · have hok2 : (all_off_writes wOk rest).1 = .ok () := by
        rcases hr : all_off_writes wOk rest with ⟨r, t⟩
        have heq : all_off_writes wOk ((led2, gpio_pin) :: rest) =
            (r, .write gpio_pin 0 :: t) := by
          simp only [all_off_writes]
          rw [if_pos hw, hr]
        rw [heq] at hok
        exact hok
      rcases List.mem_cons.1 hp with h1 | h2
      · subst h1
        exact hw
      · exact ih hok2 p h2

theorem all_off_writes_fail (wOk : Nat → Bool) :
    ∀ (pre : List (Nat × Nat)) (led2 gpio_pin : Nat) (post : List (Nat × Nat)),
      (∀ q ∈ pre, wOk q.2 = true) → wOk gpio_pin = false →
      all_off_writes wOk (pre ++ (led2, gpio_pin) :: post) =
        (.error (.Gpio ("Failed to turn off LED " ++ toString led2)),
          pre.map (fun q => Event.write q.2 0)) := by
  intro pre
  induction pre with
  | nil =>
    intro led2 gpio_pin post _ hw
    simp [all_off_writes, hw]
  | cons q rest ih =>
    intro led2 gpio_pin post hpre hw
    obtain ⟨l2, p2⟩ := q
    have hq : wOk p2 = true := hpre (l2, p2) (by simp)
    have hrest := ih led2 gpio_pin post (fun q hq2 => hpre q (List.mem_cons_of_mem _ hq2)) hw
    simp only [List.cons_append, all_off_writes, List.map_cons, List.append_eq]
    rw [if_pos hq, hrest]

/-! ### Error-kind lemmas, one per operation -/

theorem errorKindOk_new (chipOk : Bool) (lineOk requestOk : Nat → Bool) :
    errorKindOk (new chipOk lineOk requestOk) = true := by
  cases chipOk
  · rfl
  · cases hni : new_init lineOk requestOk ledRange with
    | error e =>
      simp only [new, if_true, hni]
      exact new_init_error_shape hni
    | ok hs =>
      simp only [new, if_true, hni]
      rfl

theorem errorKindOk_on (wOk : Nat → Bool) (s : LedController) (led : Nat) :
    errorKindOk («on» wOk s led).1 = true := by
  rw [on_cases]
  cases hh : mapLookup led s.handles with
  | none => rfl
  | some gpio_pin =>
    cases hw : wOk gpio_pin <;>
      simp [hw, errorKindOk, TrainError.isGpio, TrainError.isInvalidParameter]

theorem errorKindOk_off (wOk : Nat → Bool) (s : LedController) (led : Nat) :
    errorKindOk (off wOk s led).1 = true := by
  rw [off_cases]
  cases hh : mapLookup led s.handles with
  | none => rfl
  | some gpio_pin =>
    cases hw : wOk gpio_pin <;>
      simp [hw, errorKindOk, TrainError.isGpio, TrainError.isInvalidParameter]

theorem errorKindOk_blink (s : LedController) (led f : Nat) :
    errorKindOk (blink s led f).1 = true := by
  by_cases hf : f = 0
  · subst hf
    rfl
  · rw [blink_cases s led hf]
    cases hh : mapLookup led s.handles with
    | none => rfl
    | some gpio_pin => rfl

theorem errorKindOk_cancel_blink (s : LedController) (led : Nat) :
    errorKindOk (cancel_blink s led).1 = true := by
  rw [cancel_blink_fst]
  rfl

theorem errorKindOk_all_off_writes (wOk : Nat → Bool) :
    ∀ hs : List (Nat × Nat), errorKindOk (all_off_writes wOk hs).1 = true := by
  intro hs
  induction hs with
  | nil => rfl
  | cons p rest ih =>
    obtain ⟨led, gpio_pin⟩ := p
    cases hw : wOk gpio_pin
    · simp [all_off_writes, hw, errorKindOk, TrainError.isGpio]
    · rcases hr : all_off_writes wOk rest with ⟨r, t⟩
      simp only [all_off_writes, hw, hr]
      rw [hr] at ih
      exact ih

theorem errorKindOk_all_off (wOk : Nat → Bool) (s : LedController) :
    errorKindOk (all_off wOk s).1 = true := by
  rcases hr : all_off_writes wOk s.handles with ⟨r, t⟩
  have h := errorKindOk_all_off_writes wOk s.handles
  rw [hr] at h
  simp only [all_off, hr]
  exact h

theorem errorKindOk_set_led_by_color (wOk : Nat → Bool) (s : LedController)
    (subset : RangeInclusive) (position : Nat) (state : LedState) :
    errorKindOk (set_led_by_color wOk s subset position state).1 = true := by
  cases h : get_led_from_subset subset position with
  | error e =>
    simp only [set_led_by_color, h]
    simp [errorKindOk, get_led_from_subset_error_shape h]
  | ok led =>
    cases state
    · simp only [set_led_by_color, h]
      exact errorKindOk_on wOk s led
    · simp only [set_led_by_color, h]
      exact errorKindOk_off wOk s led

theorem errorKindOk_blink_by_color (s : LedController) (subset : RangeInclusive)
    (position f : Nat) :
    errorKindOk (blink_by_color s subset position f).1 = true := by
  cases h : get_led_from_subset subset position with
  | error e =>
    simp only [blink_by_color, h]
    simp [errorKindOk, get_led_from_subset_error_shape h]
  | ok led =>
    simp only [blink_by_color, h]
    exact errorKindOk_blink s led f

/-! ### Claim theorems -/

/-- C1: the hardware pin for every light id in [1,24] is `light_id + 3`
(both in `led_to_gpio_pin` and in the handle map built by a successful
`new`), and for every light id outside [1,24] each public operation
(`on`, `off`, `blink`) fails with an invalid-parameter error. -/
theorem pin_assignment_spec :
    (∀ led : Nat, 1 ≤ led → led ≤ LED_COUNT → led_to_gpio_pin led = .ok (led + 3)) ∧
    (∀ (lineOk requestOk : Nat → Bool) (c : LedController),
      new true lineOk requestOk = .ok c →
      (∀ led : Nat, 1 ≤ led → led ≤ LED_COUNT →
        mapLookup led c.handles = some (led + 3)) ∧
      (∀ (wOk : Nat → Bool) (led f : Nat), ¬ (1 ≤ led ∧ led ≤ LED_COUNT) →
        isInvalidParameterError («on» wOk c led).1 = true ∧
        isInvalidParameterError (off wOk c led).1 = true ∧
        isInvalidParameterError (blink c led f).1 = true)) := by
  refine ⟨fun led h1 h2 => led_to_gpio_pin_in_range h1 h2, ?_⟩
  intro lineOk requestOk c hnew
  have hc := new_ok_shape hnew
  subst hc
  constructor
  · intro led h1 h2
    simp only [initController]
    rw [mapLookup_map_pin]
    rw [if_pos (mem_ledRange_iff.2 ⟨h1, h2⟩)]
  · intro wOk led f hled
    have hnone : mapLookup led initController.handles = none := by
      simp only [initController]
      rw [mapLookup_map_pin]
      rw [if_neg (fun hm => hled (mem_ledRange_iff.1 hm))]
    refine ⟨?_, ?_, ?_⟩
    · rw [on_cases, hnone]
      rfl
    · rw [off_cases, hnone]
      rfl
    · by_cases hf : f = 0
      · subst hf
        rfl
      · rw [blink_cases _ _ hf, hnone]
        rfl

/-- C1 witness: pin of light 5 is 8 in the map-building function and in a
freshly constructed controller; operations on light 30 fail with
invalid-parameter. -/
theorem pin_assignment_spec_witness :
    led_to_gpio_pin 5 = .ok 8 ∧
    mapLookup 5 initController.handles = some 8 ∧
    isInvalidParameterError («on» (fun _ => true) initController 30).1 = true ∧
    isInvalidParameterError (off (fun _ => true) initController 30).1 = true ∧
    isInvalidParameterError (blink initController 30 100).1 = true := by
  have h := pin_assignment_spec
  have hnew : new true (fun _ => true) (fun _ => true) = .ok initController := by decide
  have h2 := h.2 (fun _ => true) (fun _ => true) initController hnew
  have h3 := h2.2 (fun _ => true) 30 100 (by decide)
  exact ⟨h.1 5 (by decide) (by decide), h2.1 5 (by decide) (by decide),
    h3.1, h3.2.1, h3.2.2⟩

/-- C7: every error produced by a controller operation (`new`, `on`,
`off`, `blink`, `cancel_blink`, `all_off`, the color-qualified variants
and `blink_by_color`) is either an invalid-parameter error or a
hardware-access (GPIO) error; no other error kind — in particular no
distinct not-found kind — ever originates in this component. -/
theorem error_surface_spec :
    (∀ (chipOk : Bool) (lineOk requestOk : Nat → Bool),
      errorKindOk (new chipOk lineOk requestOk) = true) ∧
    (∀ (wOk : Nat → Bool) (s : LedController) (led : Nat),
      errorKindOk («on» wOk s led).1 = true) ∧
    (∀ (wOk : Nat → Bool) (s : LedController) (led : Nat),
      errorKindOk (off wOk s led).1 = true) ∧
    (∀ (s : LedController) (led f : Nat),
      errorKindOk (blink s led f).1 = true) ∧
    (∀ (s : LedController) (led : Nat),
      errorKindOk (cancel_blink s led).1 = true) ∧
    (∀ (wOk : Nat → Bool) (s : LedController),
      errorKindOk (all_off wOk s).1 = true) ∧
    (∀ (wOk : Nat → Bool) (s : LedController) (subset : RangeInclusive)
      (position : Nat) (state : LedState),
      errorKindOk (set_led_by_color wOk s subset position state).1 = true) ∧
    (∀ (wOk : Nat → Bool) (s : LedController) (position : Nat),
      errorKindOk (green_on wOk s position).1 = true ∧
      errorKindOk (green_off wOk s position).1 = true ∧
      errorKindOk (amber_on wOk s position).1 = true ∧
      errorKindOk (amber_off wOk s position).1 = true ∧
      errorKindOk (red_on wOk s position).1 = true ∧
      errorKindOk (red_off wOk s position).1 = true) ∧
    (∀ (s : LedController) (subset : RangeInclusive) (position f : Nat),
      errorKindOk (blink_by_color s subset position f).1 = true) := by
  refine ⟨errorKindOk_new, errorKindOk_on, errorKindOk_off, errorKindOk_blink,
    errorKindOk_cancel_blink, errorKindOk_all_off, errorKindOk_set_led_by_color,
    ?_, errorKindOk_blink_by_color⟩
  intro wOk s position
  exact ⟨errorKindOk_set_led_by_color wOk s GREEN_LEDS position .On,
    errorKindOk_set_led_by_color wOk s GREEN_LEDS position .Off,
    errorKindOk_set_led_by_color wOk s AMBER_LEDS position .On,
    errorKindOk_set_led_by_color wOk s AMBER_LEDS position .Off,
    errorKindOk_set_led_by_color wOk s RED_LEDS position .On,
    errorKindOk_set_led_by_color wOk s RED_LEDS position .Off⟩

/-- C2: for each of the three color subsets (green 1-6, amber 7-12, red
13-24) the resolver returns `subset.start + position - 1` whenever the
1-based `position` lies in `[1, length]` and fails with an
invalid-parameter error otherwise; in particular `resolve(RED, 2) = 14`,
`resolve(GREEN, 1) = 1`, `resolve(AMBER, 6) = 12`, and `resolve(RED, 13)`
fails. -/
theorem resolver_spec :
    (∀ subset : RangeInclusive,
      subset = GREEN_LEDS ∨ subset = AMBER_LEDS ∨ subset = RED_LEDS →
      ∀ position : Nat,
        (1 ≤ position → position ≤ subset.«end» - subset.start + 1 →
          get_led_from_subset subset position = .ok (subset.start + position - 1)) ∧
        (¬ (1 ≤ position ∧ position ≤ subset.«end» - subset.start + 1) →
          isInvalidParameterError (get_led_from_subset subset position) = true)) ∧
    get_led_from_subset RED_LEDS 2 = .ok 14 ∧
    get_led_from_subset GREEN_LEDS 1 = .ok 1 ∧
    get_led_from_subset AMBER_LEDS 6 = .ok 12 ∧
    isInvalidParameterError (get_led_from_subset RED_LEDS 13) = true := by
  refine ⟨?_, by decide, by decide, by decide, by decide⟩
  intro subset _hsub position
  exact ⟨fun h1 h2 => get_led_from_subset_ok subset position h1 h2,
    fun h => get_led_from_subset_err subset position (by omega)⟩

/-- C2 witness: the resolver theorem applied to the red subset at
position 2. -/
theorem resolver_spec_witness :
    get_led_from_subset RED_LEDS 2 = .ok (RED_LEDS.start + 2 - 1) ∧
    isInvalidParameterError (get_led_from_subset RED_LEDS 13) = true := by
  have h := resolver_spec
  exact ⟨(h.1 RED_LEDS (by simp) 2).1 (by decide) (by decide),
    (h.1 RED_LEDS (by simp) 13).2 (by decide)⟩

/-- C8: every color-qualified operation is exactly the composition of the
resolver with the corresponding light-id operation (`on`, `off` or
`blink`), the resolver's invalid-parameter error being propagated
unchanged when the position is out of range. -/
theorem color_ops_are_thin_compositions :
    (∀ (wOk : Nat → Bool) (s : LedController) (subset : RangeInclusive) (position : Nat),
      set_led_by_color wOk s subset position .On =
        resolveThen (fun led => «on» wOk s led) s subset position) ∧
    (∀ (wOk : Nat → Bool) (s : LedController) (subset : RangeInclusive) (position : Nat),
      set_led_by_color wOk s subset position .Off =
        resolveThen (fun led => off wOk s led) s subset position) ∧
    (∀ (wOk : Nat → Bool) (s : LedController) (position : Nat),
      green_on wOk s position =
        resolveThen (fun led => «on» wOk s led) s GREEN_LEDS position) ∧
    (∀ (wOk : Nat → Bool) (s : LedController) (position : Nat),
      green_off wOk s position =
        resolveThen (fun led => off wOk s led) s GREEN_LEDS position) ∧
    (∀ (wOk : Nat → Bool) (s : LedController) (position : Nat),
      amber_on wOk s position =
        resolveThen (fun led => «on» wOk s led) s AMBER_LEDS position) ∧
    (∀ (wOk : Nat → Bool) (s : LedController) (position : Nat),
      amber_off wOk s position =
        resolveThen (fun led => off wOk s led) s AMBER_LEDS position) ∧
    (∀ (wOk : Nat → Bool) (s : LedController) (position : Nat),
      red_on wOk s position =
        resolveThen (fun led => «on» wOk s led) s RED_LEDS position) ∧
    (∀ (wOk : Nat → Bool) (s : LedController) (position : Nat),
      red_off wOk s position =
        resolveThen (fun led => off wOk s led) s RED_LEDS position) ∧
    (∀ (s : LedController) (subset : RangeInclusive) (position f : Nat),
      blink_by_color s subset position f =
        resolveThen (fun led => blink s led f) s subset position) := by
  refine ⟨?_, ?_, ?_, ?_, ?_, ?_, ?_, ?_, ?_⟩
  · intro wOk s subset position
    cases h : get_led_from_subset subset position <;>
      simp [set_led_by_color, resolveThen, h]
  · intro wOk s subset position
    cases h : get_led_from_subset subset position <;>
      simp [set_led_by_color, resolveThen, h]
  · intro wOk s position
    cases h : get_led_from_subset GREEN_LEDS position <;>
      simp [green_on, set_led_by_color, resolveThen, h]
  · intro wOk s position
    cases h : get_led_from_subset GREEN_LEDS position <;>
      simp [green_off, set_led_by_color, resolveThen, h]
  · intro wOk s position
    cases h : get_led_from_subset AMBER_LEDS position <;>
      simp [amber_on, set_led_by_color, resolveThen, h]
  · intro wOk s position
    cases h : get_led_from_subset AMBER_LEDS position <;>
      simp [amber_off, set_led_by_color, resolveThen, h]
  · intro wOk s position
    cases h : get_led_from_subset RED_LEDS position <;>
      simp [red_on, set_led_by_color, resolveThen, h]
  · intro wOk s position
    cases h : get_led_from_subset RED_LEDS position <;>
      simp [red_off, set_led_by_color, resolveThen, h]
  · intro s subset position f
    cases h : get_led_from_subset subset position <;>
      simp [blink_by_color, resolveThen, h]

/-- C6: for every controller state and light id, `blink(led, 0)` fails
with an invalid-parameter error and registers no blink task: the blink
map is the same as before the call. -/
theorem blink_zero_is_invalid_parameter :
    ∀ (s : LedController) (led : Nat),
      (blink s led 0).1 =
        .error (.InvalidParameter ("Blink frequency must be greater than 0")) ∧
      (blink s led 0).2.1.blink_handles = s.blink_handles := by
  intro s led
  exact ⟨rfl, rfl⟩

/-- C10: a failed `blink(led, 0)` call returns before the cancellation
step: the whole state (including the blink-task map) is unchanged, no
cancel event is emitted, and in particular an already-registered blink
task for `led` is still registered after the invalid-parameter error is
returned. -/
theorem blink_zero_leaves_tasks_running :
    ∀ (s : LedController) (led : Nat),
      (blink s led 0).2.1 = s ∧
      (blink s led 0).2.2 = [] ∧
      mapLookup led (blink s led 0).2.1.blink_handles = mapLookup led s.blink_handles ∧
      isInvalidParameterError (blink s led 0).1 = true := by
  intro s led
  exact ⟨rfl, rfl, rfl, rfl⟩

/-- C3: from any prior state whose handle map covers all 24 lights, a
successful `all_off()` leaves the blink-task map empty, has written 0 to
every one of the 24 pins, has cancelled every previously registered blink
task, and every cancellation precedes every pin write in the trace. -/
theorem all_off_reset_spec (wOk : Nat → Bool) (s : LedController)
    (hcov : ∀ led : Nat, 1 ≤ led → led ≤ LED_COUNT → (led, led + 3) ∈ s.handles)
    (hok : (all_off wOk s).1 = .ok ()) :
    (all_off wOk s).2.1.blink_handles = [] ∧
    (∀ led : Nat, 1 ≤ led → led ≤ LED_COUNT →
      Event.write (led + 3) 0 ∈ (all_off wOk s).2.2) ∧
    (∀ p ∈ s.blink_handles, Event.cancel p.1 ∈ (all_off wOk s).2.2) ∧
    cancelsThenWrites (all_off wOk s).2.2 := by
  rw [all_off_fst] at hok
  have hallok := all_off_writes_ok_of wOk s.handles hok
  have htr := all_off_writes_all_ok wOk s.handles hallok
  have htr2 : (all_off_writes wOk s.handles).2 =
      s.handles.map (fun p => Event.write p.2 0) := by
    rw [htr]
  refine ⟨all_off_blink_empty wOk s, ?_, ?_, ?_⟩
  · intro led h1 h2
    rw [all_off_trace, htr2]
    exact List.mem_append.2
      (Or.inr (List.mem_map.2 ⟨(led, led + 3), hcov led h1 h2, rfl⟩))
  · intro p hp
    rw [all_off_trace]
    exact List.mem_append.2 (Or.inl (List.mem_map.2 ⟨p, hp, rfl⟩))
  · rw [all_off_trace, htr2]
    refine ⟨s.blink_handles.map (fun p => Event.cancel p.1),
      s.handles.map (fun p => Event.write p.2 0), rfl, ?_, ?_⟩
    · intro e he
      rcases List.mem_map.1 he with ⟨p, _, rfl⟩
      rfl
    · intro e he
      rcases List.mem_map.1 he with ⟨p, _, rfl⟩
      rfl

/-- C3 witness: the reset theorem applied to the fully built controller
with one blink task registered (light 3) and fault-free hardware. -/
theorem all_off_reset_spec_witness :
    (all_off (fun _ => true) ⟨initController.handles, [(3, 100)]⟩).2.1.blink_handles = [] ∧
    Event.write (24 + 3) 0 ∈
      (all_off (fun _ => true) ⟨initController.handles, [(3, 100)]⟩).2.2 ∧
    Event.cancel 3 ∈
      (all_off (fun _ => true) ⟨initController.handles, [(3, 100)]⟩).2.2 ∧
    cancelsThenWrites
      (all_off (fun _ => true) ⟨initController.handles, [(3, 100)]⟩).2.2 := by
  have h := all_off_reset_spec (fun _ => true) ⟨initController.handles, [(3, 100)]⟩
    (by
      intro led h1 h2
      have h2b : led ≤ 24 := h2
      interval_cases led <;> decide)
    (by decide)
  exact ⟨h.1, h.2.1 24 (by decide) (by decide), h.2.2.1 (3, 100) (by decide), h.2.2.2⟩

/-- C4: for a light with a handle, `blink(led, p1)` then `blink(led, p2)`
(both periods nonzero) leaves exactly one registered blink task for `led`,
carrying period `p2`; and every operation preserves the invariant that the
blink-task map has at most one entry per light id. -/
theorem blink_last_writer_wins_spec :
    (∀ (s : LedController) (led p1 p2 : Nat), p1 ≠ 0 → p2 ≠ 0 →
      mapLookup led s.handles ≠ none →
      ((blink (blink s led p1).2.1 led p2).2.1.blink_handles.filter
        (fun p => p.1 == led)) = [(led, p2)]) ∧
    (∀ (wOk : Nat → Bool) (s : LedController) (led : Nat),
      (blinkKeys s).Nodup → (blinkKeys («on» wOk s led).2.1).Nodup) ∧
    (∀ (wOk : Nat → Bool) (s : LedController) (led : Nat),
      (blinkKeys s).Nodup → (blinkKeys (off wOk s led).2.1).Nodup) ∧
    (∀ (s : LedController) (led f : Nat),
      (blinkKeys s).Nodup → (blinkKeys (blink s led f).2.1).Nodup) ∧
    (∀ (wOk : Nat → Bool) (s : LedController),
      (blinkKeys (all_off wOk s).2.1).Nodup) ∧
    (∀ (s : LedController) (led : Nat),
      (blinkKeys s).Nodup → (blinkKeys (cancel_blink s led).2.1).Nodup) := by
  refine ⟨?_, ?_, ?_, ?_, ?_, ?_⟩
  · intro s led p1 p2 hp1 hp2 hh
    cases hhl : mapLookup led s.handles with
    | none => exact absurd hhl hh
    | some gpio_pin =>
      rw [blink_cases s led hp1, hhl]
      dsimp only
      rw [blink_cases _ led hp2]
      dsimp only
      rw [hhl]
      dsimp only
      simp [mapInsert, filter_key_mapRemove]
  · intro wOk s led hnd
    have h := on_blink_handles wOk s led
    simp only [blinkKeys, h]
    exact keys_mapRemove_nodup hnd
  · intro wOk s led hnd
    have h := off_blink_handles wOk s led
    simp only [blinkKeys, h]
    exact keys_mapRemove_nodup hnd
  · intro s led f hnd
    by_cases hf : f = 0
    · subst hf
      exact hnd
    · rw [blink_cases s led hf]
      cases hhl : mapLookup led s.handles with
      | none =>
        simp only [blinkKeys, cancel_blink_state]
        exact keys_mapRemove_nodup hnd
      | some gpio_pin =>
        simp only [blinkKeys]
        exact keys_mapInsert_nodup f (keys_mapRemove_nodup hnd)
  · intro wOk s
    simp only [blinkKeys, all_off_blink_empty]
    exact List.nodup_nil
  · intro s led hnd
    simp only [blinkKeys, cancel_blink_state]
    exact keys_mapRemove_nodup hnd

/-- C4 witness: blinking light 5 at 100 then at 250 on a fresh controller
leaves exactly the single task (5, 250). -/
theorem blink_last_writer_wins_spec_witness :
    ((blink (blink initController 5 100).2.1 5 250).2.1.blink_handles.filter
      (fun p => p.1 == 5)) = [(5, 250)] :=
  blink_last_writer_wins_spec.1 initController 5 100 250 (by decide) (by decide)
    (by decide)

/-- C5: `on` and `off` always leave no blink task registered for the light
and order every cancellation before the write; on a light with a working
handle they succeed, the last value written to the light's pin being 1
(`on`) or 0 (`off`); consequently `blink(led, p)` followed by `off(led)`
succeeds, leaves no blink task for `led`, and the last value written to
the light's pin over both calls is 0. -/
theorem on_off_win_over_blink_spec :
    (∀ (wOk : Nat → Bool) (s : LedController) (led : Nat),
      mapLookup led («on» wOk s led).2.1.blink_handles = none ∧
      cancelsThenWrites («on» wOk s led).2.2 ∧
      (∀ gpio_pin : Nat, mapLookup led s.handles = some gpio_pin →
        wOk gpio_pin = true →
        («on» wOk s led).1 = .ok () ∧
        lastWriteTo gpio_pin («on» wOk s led).2.2 = some 1)) ∧
    (∀ (wOk : Nat → Bool) (s : LedController) (led : Nat),
      mapLookup led (off wOk s led).2.1.blink_handles = none ∧
      cancelsThenWrites (off wOk s led).2.2 ∧
      (∀ gpio_pin : Nat, mapLookup led s.handles = some gpio_pin →
        wOk gpio_pin = true →
        (off wOk s led).1 = .ok () ∧
        lastWriteTo gpio_pin (off wOk s led).2.2 = some 0)) ∧
    (∀ (wOk : Nat → Bool) (s : LedController) (led p gpio_pin : Nat),
      p ≠ 0 → mapLookup led s.handles = some gpio_pin → wOk gpio_pin = true →
      (off wOk (blink s led p).2.1 led).1 = .ok () ∧
      mapLookup led (off wOk (blink s led p).2.1 led).2.1.blink_handles = none ∧
      lastWriteTo gpio_pin
        ((blink s led p).2.2 ++ (off wOk (blink s led p).2.1 led).2.2) = some 0) := by
  refine ⟨?_, ?_, ?_⟩
  · intro wOk s led
    refine ⟨?_, cancelsThenWrites_on wOk s led, ?_⟩
    · rw [on_blink_handles]
      exact mapLookup_mapRemove_self led s.blink_handles
    · intro gpio_pin hh hw
      have h := on_ok_result wOk s led gpio_pin hh hw
      refine ⟨h.1, ?_⟩
      rw [h.2]
      exact lastWriteTo_append_write gpio_pin 1 _
  · intro wOk s led
    refine ⟨?_, cancelsThenWrites_off wOk s led, ?_⟩
    · rw [off_blink_handles]
      exact mapLookup_mapRemove_self led s.blink_handles
    · intro gpio_pin hh hw
      have h := off_ok_result wOk s led gpio_pin hh hw
      refine ⟨h.1, ?_⟩
      rw [h.2]
      exact lastWriteTo_append_write gpio_pin 0 _
  · intro wOk s led p gpio_pin hp hh hw
    have hh1 : mapLookup led ((blink s led p).2.1).handles = some gpio_pin := by
      rw [blink_handles_eq]
      exact hh
    have h := off_ok_result wOk (blink s led p).2.1 led gpio_pin hh1 hw
    refine ⟨h.1, ?_, ?_⟩
    · rw [off_blink_handles]
      exact mapLookup_mapRemove_self led _
    · rw [h.2, ← List.append_assoc]
      exact lastWriteTo_append_write gpio_pin 0 _

/-- C5 witness: blink light 5 at 100 then turn it off on a fresh
controller with fault-free hardware (light 5 sits on pin 8). -/
theorem on_off_win_over_blink_spec_witness :
    (off (fun _ => true) (blink initController 5 100).2.1 5).1 = .ok () ∧
    mapLookup 5
      (off (fun _ => true) (blink initController 5 100).2.1 5).2.1.blink_handles = none ∧
    lastWriteTo 8
      ((blink initController 5 100).2.2 ++
        (off (fun _ => true) (blink initController 5 100).2.1 5).2.2) = some 0 :=
  on_off_win_over_blink_spec.2.2 (fun _ => true) initController 5 100 8
    (by decide) (by decide) rfl

/-- C9: `all_off` is fail-fast: the blink-task map is emptied
unconditionally (even when the call fails), and if the handles iterate as
`pre ++ (led, pin) :: post` with every write in `pre` succeeding and the
write to `pin` failing, the call returns that GPIO error and the trace
holds all the cancellations followed by exactly the writes for `pre` —
the failing pin and everything after it are left unwritten. -/
theorem all_off_fail_fast_spec :
    (∀ (wOk : Nat → Bool) (s : LedController),
      (all_off wOk s).2.1.blink_handles = []) ∧
    (∀ (wOk : Nat → Bool) (s : LedController)
      (pre : List (Nat × Nat)) (led gpio_pin : Nat) (post : List (Nat × Nat)),
      s.handles = pre ++ (led, gpio_pin) :: post →
      (∀ q ∈ pre, wOk q.2 = true) → wOk gpio_pin = false →
      (all_off wOk s).1 = .error (.Gpio ("Failed to turn off LED " ++ toString led)) ∧
      (all_off wOk s).2.2 =
        s.blink_handles.map (fun p => Event.cancel p.1) ++
          pre.map (fun q => Event.write q.2 0)) := by
  refine ⟨all_off_blink_empty, ?_⟩
  intro wOk s pre led gpio_pin post hs hpre hw
  have hfail := all_off_writes_fail wOk pre led gpio_pin post hpre hw
  constructor
  · rw [all_off_fst, hs, hfail]
  · rw [all_off_trace, hs, hfail]

/-- C9 witness: three handles, the write to pin 5 (light 2) failing: the
call errors on light 2, the blink map is emptied, light 7's task is
cancelled, and only pin 4 is written. -/
theorem all_off_fail_fast_spec_witness :
    (all_off (fun p => p != 5) ⟨[(1, 4), (2, 5), (3, 6)], [(7, 50)]⟩).2.1.blink_handles = [] ∧
    (all_off (fun p => p != 5) ⟨[(1, 4), (2, 5), (3, 6)], [(7, 50)]⟩).1 =
      .error (.Gpio ("Failed to turn off LED " ++ toString 2)) ∧
    (all_off (fun p => p != 5) ⟨[(1, 4), (2, 5), (3, 6)], [(7, 50)]⟩).2.2 =
      [Event.cancel 7] ++ [Event.write 4 0] := by
  have h1 := all_off_fail_fast_spec.1 (fun p => p != 5)
    ⟨[(1, 4), (2, 5), (3, 6)], [(7, 50)]⟩
  have h2 := all_off_fail_fast_spec.2 (fun p => p != 5)
    ⟨[(1, 4), (2, 5), (3, 6)], [(7, 50)]⟩ [(1, 4)] 2 5 [(3, 6)] rfl
    (by decide) (by decide)
  exact ⟨h1, h2.1, h2.2⟩

end TrainR
